import Mathlib

/-!
Verification of `src/components/BirthdayInputField/BirthdayInputField.js`.

The component is a birthday date picker: three dropdowns (day, month, year),
pure conversion logic between a three-field selection and a JavaScript `Date`
(`dateFromSelected` / `selectedFromDate`), a debounced blur notification, and
a thin field wrapper with a label/id precondition.

The embedding below models the ECMAScript pieces the code relies on:
  * `Date.UTC(year, month, day)` and the UTC field getters, via proleptic
    Gregorian calendar arithmetic (a port of a standard civil-days algorithm),
    including the two-digit-year rule (0..99 means 1900..1999) and the
    ±100,000,000-day range limit beyond which the result is an Invalid Date;
  * `parseInt(str, 10)`: skip whitespace, optional sign, longest leading run
    of decimal digits, NaN if that run is empty;
  * truthiness of the string props used in `label && !id`.

JavaScript numbers are modeled as exact integers (`Int`); this is faithful
for every magnitude that can reach the modeled code paths below 2^53, and
the claims under study stay far below that.
-/

namespace Birthday

/-- Days since 1970-01-01 of the civil date `(y, m, d)` with `m` 1-based,
proleptic Gregorian (Howard Hinnant's days-from-civil algorithm, floor
division throughout). This is the day count ECMAScript's `MakeDay` computes. -/
def daysFromCivil (y m d : Int) : Int :=
  let y2 := if m ≤ 2 then y - 1 else y
  let era := Int.fdiv y2 400
  let yoe := y2 - era * 400
  let mp := if 2 < m then m - 3 else m + 9
  let doy := Int.fdiv (153 * mp + 2) 5 + d - 1
  let doe := yoe * 365 + Int.fdiv yoe 4 - Int.fdiv yoe 100 + doy
  era * 146097 + doe - 719468

/-- Inverse of `daysFromCivil`: the civil `(year, month 1-based, day)` of a
day count since the epoch (Hinnant's civil-from-days algorithm). -/
def civilFromDays (z0 : Int) : Int × Int × Int :=
  let z := z0 + 719468
  let era := Int.fdiv z 146097
  let doe := z - era * 146097
  let yoe := Int.fdiv (doe - Int.fdiv doe 1460 + Int.fdiv doe 36524 - Int.fdiv doe 146096) 365
  let y := yoe + era * 400
  let doy := doe - (365 * yoe + Int.fdiv yoe 4 - Int.fdiv yoe 100)
  let mp := Int.fdiv (5 * doy + 2) 153
  let d := doy - Int.fdiv (153 * mp + 2) 5 + 1
  let m := if mp < 10 then mp + 3 else mp - 9
  (if m ≤ 2 then y + 1 else y, m, d)

/-- A JavaScript `Date` at day granularity: either an Invalid Date or a
normalized UTC calendar day (`month0` is 0-based, as `getUTCMonth` reports). -/
inductive JDate
  | invalid
  | valid (year : Int) (month0 : Int) (day : Int)
deriving DecidableEq, Repr

/-- `new Date(Date.UTC(yearArg, month0Arg, dayArg))`: two-digit years map to
1900+, out-of-range months and days roll over by calendar arithmetic, and a
result farther than 100,000,000 days from the epoch is an Invalid Date. -/
def mkUTC (yearArg month0Arg dayArg : Int) : JDate :=
  let y := if 0 ≤ yearArg ∧ yearArg ≤ 99 then yearArg + 1900 else yearArg
  let tm := y * 12 + month0Arg
  let ny := Int.fdiv tm 12
  let nm0 := tm - ny * 12
  let dn := daysFromCivil ny (nm0 + 1) 1 + (dayArg - 1)
  if dn.natAbs ≤ 100000000 then
    match civilFromDays dn with
    | (cy, cm, cd) => JDate.valid cy (cm - 1) cd
  else JDate.invalid

/-- `date.getUTCFullYear()`; `none` models the `NaN` of an Invalid Date. -/
def getUTCFullYear : JDate → Option Int
  | JDate.invalid => none
  | JDate.valid y _ _ => some y

/-- `date.getUTCMonth()` (0-based); `none` models `NaN`. -/
def getUTCMonth : JDate → Option Int
  | JDate.invalid => none
  | JDate.valid _ m0 _ => some m0

/-- `date.getUTCDate()`; `none` models `NaN`. -/
def getUTCDate : JDate → Option Int
  | JDate.invalid => none
  | JDate.valid _ _ d => some d

/-- A value held by one field of the component's `selected` state, or fed to
`parseNum`: JavaScript `null`, `NaN`, a number, or a raw string. -/
inductive FieldVal
  | vnull
  | vnan
  | vnum (n : Int)
  | vstr (s : String)
deriving DecidableEq, Repr

/-- The whitespace characters `parseInt` skips (space, tab, LF, VT, FF, CR). -/
def isWsChar (c : Char) : Bool :=
  c = ' ' || c.val = 9 || c.val = 10 || c.val = 11 || c.val = 12 || c.val = 13

/-- Decimal digit test. -/
def isDigitChar (c : Char) : Bool :=
  '0' ≤ c && c ≤ '9'

/-- Value of a list of decimal digits, most significant first. -/
def digitsVal (ds : List Char) : Nat :=
  ds.foldl (fun acc c => acc * 10 + (c.toNat - '0'.toNat)) 0

/-- Strip an optional leading sign, returning whether it was `-` and the
remaining characters. -/
def stripSign : List Char → Bool × List Char
  | '-' :: rest => (true, rest)
  | '+' :: rest => (false, rest)
  | cs => (false, cs)

/-- `parseInt(s, 10)` on the character list of `s`: skip whitespace, optional
sign, read the longest leading run of decimal digits; `none` models `NaN`
(empty digit run). -/
def jsParseIntChars (cs0 : List Char) : Option Int :=
  let p := stripSign (cs0.dropWhile isWsChar)
  let ds := p.2.takeWhile isDigitChar
  if ds.isEmpty then none
  else some ((if p.1 then -1 else 1) * (digitsVal ds : Int))

/-- `parseInt(s, 10)` on a string. -/
def jsParseIntStr (s : String) : Option Int :=
  jsParseIntChars s.data

/-- The spec's "has a leading base-10 integer": after optional whitespace and
an optional sign, the string starts with at least one decimal digit. -/
def hasLeadingIntChars (cs : List Char) : Bool :=
  match (stripSign (cs.dropWhile isWsChar)).2 with
  | [] => false
  | c :: _ => isDigitChar c

/-- `hasLeadingIntChars` on a string. -/
def hasLeadingInt (s : String) : Bool :=
  hasLeadingIntChars s.data

/-- `parseNum` from the source: `parseInt(str, 10)`, `null` on `NaN`. The
argument may be a string (a raw dropdown value) or an already-numeric state
field, which `parseInt` first coerces to a string: `parseInt(null)` and
`parseInt(NaN)` are `NaN`, and `parseInt(n)` for an integer `n` of moderate
magnitude reads back `n`. -/
def parseNum : FieldVal → Option Int
  | FieldVal.vnull => none
  | FieldVal.vnan => none
  | FieldVal.vnum n => some n
  | FieldVal.vstr s => jsParseIntStr s

/-- The component's `selected` state / the argument of `dateFromSelected`. -/
structure Selection where
  day : FieldVal
  month : FieldVal
  year : FieldVal
deriving DecidableEq, Repr

/-- `isValidDate(date, year, month, day)` from the source: the date's UTC
year, month+1 and day must equal the selected values (an Invalid Date's `NaN`
fields compare unequal to everything). -/
def isValidDate (date : JDate) (year month day : Int) : Bool :=
  let yearsMatch := getUTCFullYear date == some year
  let monthsMatch := (getUTCMonth date).map (· + 1) == some month
  let daysMatch := getUTCDate date == some day
  yearsMatch && monthsMatch && daysMatch

/-- `dateFromSelected` from the source: parse the three fields, build
`new Date(Date.UTC(year, month - 1, day))`, return it only if `isValidDate`
accepts it, else `null` (modeled as `none`). -/
def dateFromSelected (sel : Selection) : Option JDate :=
  match parseNum sel.day, parseNum sel.month, parseNum sel.year with
  | some dayNum, some monthNum, some yearNum =>
      let d := mkUTC yearNum (monthNum - 1) dayNum
      if isValidDate d yearNum monthNum dayNum then some d else none
  | _, _, _ => none

/-- `selectedFromDate` from the source: read the UTC day, month+1 and year of
the date into a selection (an Invalid Date yields `NaN` fields). -/
def selectedFromDate (date : JDate) : Selection :=
  match date with
  | JDate.invalid => ⟨FieldVal.vnan, FieldVal.vnan, FieldVal.vnan⟩
  | JDate.valid y m0 d => ⟨FieldVal.vnum d, FieldVal.vnum (m0 + 1), FieldVal.vnum y⟩

/-- `pad` from the source: zero-pad a number in `[0, 10)` to two characters,
otherwise its plain decimal string. -/
def pad (num : Int) : String :=
  if 0 ≤ num ∧ num < 10 then "0" ++ toString num else toString num

/-- lodash `range(start, stop)` with the default step 1 (empty when
`stop ≤ start`). -/
def rangeUp (start stop : Int) : List Int :=
  (List.range (stop - start).toNat).map (fun i => start + Int.ofNat i)

/-- lodash `range(start, stop, -1)` (empty when `start ≤ stop`). -/
def rangeDown (start stop : Int) : List Int :=
  (List.range (start - stop).toNat).map (fun i => start - Int.ofNat i)

/-- `days = range(1, 32)`: the fixed day options, every month. -/
def days : List Int := rangeUp 1 32

/-- `months = range(1, 13)`. -/
def months : List Int := rangeUp 1 13

/-- `yearsToShow = 80`. -/
def yearsToShow : Int := 80

/-- `years = range(currentYear, currentYear - yearsToShow, -1)`.
`currentYear = new Date().getFullYear()` is wall-clock dependent, so it is a
parameter here. -/
def years (currentYear : Int) : List Int :=
  rangeDown currentYear (currentYear - yearsToShow)

/-- Rendered label of a day option: `pad(d)`. -/
def dayLabel (d : Int) : String := pad d

/-- Rendered label of a month option: `pad(m)`. -/
def monthLabel (m : Int) : String := pad m

/-- Rendered label of a year option: the unpadded `{y}`. -/
def yearLabel (y : Int) : String := toString y

/-- Which of the three dropdowns a change event comes from (the `type`
argument of `handleSelectChange`). -/
inductive FieldType
  | day
  | month
  | year
deriving DecidableEq, Repr

/-- `{ ...prevState.selected, [type]: v }` where `v` is a `parseNum` result
(a number or `null`). -/
def setField (sel : Selection) (ty : FieldType) (v : Option Int) : Selection :=
  let fv := match v with
    | none => FieldVal.vnull
    | some n => FieldVal.vnum n
  match ty with
  | FieldType.day => { sel with day := fv }
  | FieldType.month => { sel with month := fv }
  | FieldType.year => { sel with year := fv }

/-- Read one field of a selection. -/
def getField (sel : Selection) : FieldType → FieldVal
  | FieldType.day => sel.day
  | FieldType.month => sel.month
  | FieldType.year => sel.year

/-- Result of one `handleSelectChange` call: the new `selected` state and the
arguments of the `onChange` invocations it performed, in order. -/
structure ChangeResult where
  newState : Selection
  emitted : List (Option JDate)
deriving DecidableEq, Repr

/-- `handleSelectChange(type, value)` from the source: merge `parseNum(value)`
into the selection, call `onChange(dateFromSelected(merged))` once, and store
the merged selection as the new state whether or not composition succeeded. -/
def handleSelectChange (sel : Selection) (ty : FieldType) (raw : String) : ChangeResult :=
  let selected := setField sel ty (jsParseIntStr raw)
  { newState := selected, emitted := [dateFromSelected selected] }

/-- The `value` prop as seen through JavaScript reference identity: `ref`
numbers object identities, so `oldValue !== newValue` is `ref` inequality;
`val = none` models a non-`Date` value such as `null` (`instanceof Date` is
true exactly when `val` is `some`, Invalid Dates included). -/
structure PropVal where
  ref : Nat
  val : Option JDate
deriving DecidableEq, Repr

/-- `componentWillReceiveProps` from the source: resync the `selected` state
to `selectedFromDate(newValue)` only when the prop identity changed and the
new value is a `Date`; otherwise keep the state. -/
def componentWillReceiveProps (st : Selection) (oldp newp : PropVal) : Selection :=
  let valueChanged := oldp.ref != newp.ref
  match newp.val, valueChanged with
  | some d, true => selectedFromDate d
  | _, _ => st

/-- `BLUR_TIMEOUT = 100` (milliseconds). -/
def BLUR_TIMEOUT : Nat := 100

/-- The widget's timer-relevant state: the current time and the absolute fire
time of the pending blur timeout, if one is live. The three dropdowns share
the `blurTimeoutId` field and the handlers, so one pending slot suffices
(each `setTimeout` is preceded by `clearTimeout` of the previous id). -/
structure WidgetTimer where
  now : Nat
  pendingAt : Option Nat
deriving DecidableEq, Repr

/-- Events hitting the widget: a focus or blur on any of the three dropdowns,
time advancing by `dt` milliseconds (during which a due timeout fires), and
unmounting. -/
inductive WEvent
  | wfocus
  | wblur
  | wadvance (dt : Nat)
  | wunmount
deriving DecidableEq, Repr

/-- Callbacks the widget invokes on its props. -/
inductive Callback
  | cbFocus
  | cbBlur
deriving DecidableEq, Repr

/-- One step of the focus/blur machine, from the source handlers:
`handleSelectFocus` clears the pending timeout and calls `onFocus` at once;
`handleSelectBlur` clears the pending timeout and schedules `onBlur` after
`BLUR_TIMEOUT`; time advancing past a live deadline fires `onBlur` once and
consumes the timeout; `componentWillUnmount` clears the pending timeout. -/
def wstep (s : WidgetTimer) : WEvent → WidgetTimer × List Callback
  | WEvent.wfocus => ({ s with pendingAt := none }, [Callback.cbFocus])
  | WEvent.wblur => ({ s with pendingAt := some (s.now + BLUR_TIMEOUT) }, [])
  | WEvent.wadvance dt =>
      let t := s.now + dt
      match s.pendingAt with
      | some f =>
          if f ≤ t then ({ now := t, pendingAt := none }, [Callback.cbBlur])
          else ({ now := t, pendingAt := some f }, [])
      | none => ({ now := t, pendingAt := none }, [])
  | WEvent.wunmount => ({ s with pendingAt := none }, [])

/-- Run a sequence of events, collecting all invoked callbacks in order. -/
def wrun (s : WidgetTimer) : List WEvent → WidgetTimer × List Callback
  | [] => (s, [])
  | e :: es =>
      let r := wstep s e
      let r2 := wrun r.1 es
      (r2.1, r.2 ++ r2.2)

/-- Truthiness of a string prop whose default is `null`: `null` and the empty
string are falsy, every other string is truthy. -/
def truthyStr : Option String → Bool
  | none => false
  | some s => !s.isEmpty

/-- What the field wrapper renders when it does not throw. -/
structure Rendered where
  hasLabel : Bool
deriving DecidableEq, Repr

/-- `BirthdayInputFieldComponent` from the source: `if (label && !id) throw`;
otherwise render, with the label element present exactly when `label` is
truthy. -/
def birthdayInputFieldComponent (label id : Option String) : Except String Rendered :=
  if truthyStr label && !truthyStr id then
    Except.error "id required when a label is given"
  else
    Except.ok { hasLabel := truthyStr label }

/-! ## Theorems -/

/-- C1: for every selection whose three fields parse as integers,
`dateFromSelected` returns the date built by `Date.UTC(year, month-1, day)`
exactly when re-reading its UTC year/month/day matches the parsed inputs
(`isValidDate`), and `none` otherwise; in particular 31 April 2023 and
29 February 2023 give `none` while 29 February 2024 gives a concrete date. -/
theorem C1_compose_validates_by_utc_readback :
    (∀ (sel : Selection) (dn mn yn : Int),
        parseNum sel.day = some dn → parseNum sel.month = some mn →
        parseNum sel.year = some yn →
        dateFromSelected sel =
          if isValidDate (mkUTC yn (mn - 1) dn) yn mn dn then some (mkUTC yn (mn - 1) dn)
          else none)
    ∧ dateFromSelected ⟨FieldVal.vnum 31, FieldVal.vnum 4, FieldVal.vnum 2023⟩ = none
    ∧ dateFromSelected ⟨FieldVal.vnum 29, FieldVal.vnum 2, FieldVal.vnum 2023⟩ = none
    ∧ dateFromSelected ⟨FieldVal.vnum 29, FieldVal.vnum 2, FieldVal.vnum 2024⟩ =
        some (JDate.valid 2024 1 29) := by
  refine ⟨?_, by decide, by decide, by decide⟩
  intro sel dn mn yn hd hm hy
  simp only [dateFromSelected, hd, hm, hy]

/-- C1 witness: the general clause applied to 2 July 1990. -/
theorem C1_witness :
    dateFromSelected ⟨FieldVal.vnum 2, FieldVal.vnum 7, FieldVal.vnum 1990⟩ =
      if isValidDate (mkUTC 1990 (7 - 1) 2) 1990 7 2 then some (mkUTC 1990 (7 - 1) 2)
      else none :=
  C1_compose_validates_by_utc_readback.1
    ⟨FieldVal.vnum 2, FieldVal.vnum 7, FieldVal.vnum 1990⟩ 2 7 1990 rfl rfl rfl

/-- C2: composing a numeric in-range selection to a date, decomposing it with
`selectedFromDate`, and composing again returns the same date. -/
theorem C2_compose_decompose_roundtrip (currentYear d m y : Int)
    (hd : 1 ≤ d ∧ d ≤ 31) (hm : 1 ≤ m ∧ m ≤ 12)
    (hy : currentYear - 79 ≤ y ∧ y ≤ currentYear)
    (date : JDate)
    (hc : dateFromSelected ⟨FieldVal.vnum d, FieldVal.vnum m, FieldVal.vnum y⟩ = some date) :
    dateFromSelected (selectedFromDate date) = some date := by
  rcases date with _ | ⟨yy, mm0, dd⟩
  · exfalso
    simp only [dateFromSelected, parseNum] at hc
    split at hc
    · rename_i hvalid
      rw [Option.some_inj] at hc
      rw [hc] at hvalid
      simp [isValidDate, getUTCFullYear] at hvalid
    · exact Option.noConfusion hc
  · have hc' := hc
    simp only [dateFromSelected, parseNum] at hc'
    split at hc'
    · rename_i hvalid
      rw [Option.some_inj] at hc'
      rw [hc'] at hvalid
      simp only [isValidDate, getUTCFullYear, getUTCMonth, getUTCDate, Option.map,
        Bool.and_eq_true, beq_iff_eq, Option.some.injEq] at hvalid
      obtain ⟨⟨h1, h2⟩, h3⟩ := hvalid
      subst h1
      subst h2
      subst h3
      simp only [selectedFromDate]
      exact hc
    · exact Option.noConfusion hc'

/-- C2 witness: round trip through 29 February 2024. -/
theorem C2_witness :
    dateFromSelected (selectedFromDate (JDate.valid 2024 1 29)) =
      some (JDate.valid 2024 1 29) :=
  C2_compose_decompose_roundtrip 2024 29 2 2024 (by decide) (by decide) (by decide)
    (JDate.valid 2024 1 29) (by decide)

/-- C3: if any field of a selection fails to parse as an integer,
`dateFromSelected` returns `none`; and it is total, always returning either
`none` or a date. -/
theorem C3_unparseable_field_gives_absent :
    (∀ sel : Selection,
        parseNum sel.day = none ∨ parseNum sel.month = none ∨ parseNum sel.year = none →
        dateFromSelected sel = none)
    ∧ (∀ sel : Selection, dateFromSelected sel = none ∨ ∃ d, dateFromSelected sel = some d) := by
  constructor
  · intro sel h
    rcases hd : parseNum sel.day with _ | dn <;>
      rcases hm : parseNum sel.month with _ | mn <;>
        rcases hy : parseNum sel.year with _ | yn <;>
          simp_all [dateFromSelected]
  · intro sel
    cases h : dateFromSelected sel with
    | none => exact Or.inl rfl
    | some d => exact Or.inr ⟨d, rfl⟩

/-- C3 witness: an empty month string makes the whole selection compose to
`none`. -/
theorem C3_witness :
    dateFromSelected ⟨FieldVal.vnum 15, FieldVal.vstr "", FieldVal.vnum 2020⟩ = none :=
  C3_unparseable_field_gives_absent.1
    ⟨FieldVal.vnum 15, FieldVal.vstr "", FieldVal.vnum 2020⟩ (Or.inr (Or.inl (by decide)))

/-- C4: `handleSelectChange` emits exactly one `onChange` call, whose argument
is `dateFromSelected` of the merged selection, and stores the merged selection
as the new state whether or not composition succeeded; changing the month of
the valid selection 31/1/2000 to 4 emits `none` (April has no day 31) while
the local state keeps day 31, month 4, year 2000. -/
theorem C4_change_merges_emits_once_and_stores :
    (∀ (sel : Selection) (ty : FieldType) (raw : String),
        (handleSelectChange sel ty raw).emitted =
          [dateFromSelected (setField sel ty (jsParseIntStr raw))]
        ∧ (handleSelectChange sel ty raw).newState = setField sel ty (jsParseIntStr raw)
        ∧ (handleSelectChange sel ty raw).emitted.length = 1)
    ∧ (handleSelectChange ⟨FieldVal.vnum 31, FieldVal.vnum 1, FieldVal.vnum 2000⟩
        FieldType.month "4").emitted = [none]
    ∧ (handleSelectChange ⟨FieldVal.vnum 31, FieldVal.vnum 1, FieldVal.vnum 2000⟩
        FieldType.month "4").newState =
        ⟨FieldVal.vnum 31, FieldVal.vnum 4, FieldVal.vnum 2000⟩ := by
  refine ⟨fun sel ty raw => ⟨rfl, rfl, rfl⟩, by decide, by decide⟩

/-- C5: a focus event clears any pending blur timeout and fires the focus
callback at once; a blur followed by a focus before `BLUR_TIMEOUT` elapses
yields zero blur-callback invocations (and exactly one focus callback), no
matter how much time then passes. -/
theorem C5_focus_cancels_pending_blur :
    (∀ s : WidgetTimer, wstep s WEvent.wfocus = ({ s with pendingAt := none }, [Callback.cbFocus]))
    ∧ (∀ (s : WidgetTimer) (d1 d2 : Nat), d1 < BLUR_TIMEOUT →
        (wrun s [WEvent.wblur, WEvent.wadvance d1, WEvent.wfocus,
            WEvent.wadvance d2]).2.count Callback.cbBlur = 0
        ∧ (wrun s [WEvent.wblur, WEvent.wadvance d1, WEvent.wfocus,
            WEvent.wadvance d2]).2.count Callback.cbFocus = 1) := by
  constructor
  · intro s
    rfl
  · intro s d1 d2 h
    have hlt : ¬ (s.now + BLUR_TIMEOUT ≤ s.now + d1) := by
      simp only [BLUR_TIMEOUT] at h ⊢
      omega
    simp [wrun, wstep, hlt, List.count_cons]

/-- C5 witness: blur at time 0, focus 50 ms later, then 500 ms of silence. -/
theorem C5_witness :
    (wrun ⟨0, none⟩ [WEvent.wblur, WEvent.wadvance 50, WEvent.wfocus,
        WEvent.wadvance 500]).2.count Callback.cbBlur = 0
    ∧ (wrun ⟨0, none⟩ [WEvent.wblur, WEvent.wadvance 50, WEvent.wfocus,
        WEvent.wadvance 500]).2.count Callback.cbFocus = 1 :=
  C5_focus_cancels_pending_blur.2 ⟨0, none⟩ 50 500 (by decide)

/-- C6: unmounting while a blur timeout is pending (before `BLUR_TIMEOUT`
elapses) clears it, so the blur callback fires zero times afterwards. -/
theorem C6_unmount_cancels_pending_blur (s : WidgetTimer) (d1 d2 : Nat)
    (h : d1 < BLUR_TIMEOUT) :
    (wrun s [WEvent.wblur, WEvent.wadvance d1, WEvent.wunmount,
        WEvent.wadvance d2]).2.count Callback.cbBlur = 0 := by
  have hlt : ¬ (s.now + BLUR_TIMEOUT ≤ s.now + d1) := by
    simp only [BLUR_TIMEOUT] at h ⊢
    omega
  simp [wrun, wstep, hlt, List.count_cons]

/-- C6 witness: blur at time 0, unmount 99 ms later, then 1000 ms of silence. -/
theorem C6_witness :
    (wrun ⟨0, none⟩ [WEvent.wblur, WEvent.wadvance 99, WEvent.wunmount,
        WEvent.wadvance 1000]).2.count Callback.cbBlur = 0 :=
  C6_unmount_cancels_pending_blur ⟨0, none⟩ 99 1000 (by decide)

/-- C7: the local selection resyncs to `selectedFromDate` of the new prop
value exactly when the prop identity changed and the new value is a `Date`;
with an unchanged identity, or a non-`Date` new value (such as `null` after
previously holding a date), the local selection is kept unchanged. -/
theorem C7_resync_only_on_identity_change_to_date :
    ∀ (st : Selection) (oldp newp : PropVal),
      (∀ d, oldp.ref ≠ newp.ref → newp.val = some d →
        componentWillReceiveProps st oldp newp = selectedFromDate d)
      ∧ (oldp.ref = newp.ref → componentWillReceiveProps st oldp newp = st)
      ∧ (newp.val = none → componentWillReceiveProps st oldp newp = st) := by
  intro st oldp newp
  refine ⟨?_, ?_, ?_⟩
  · intro d hne hval
    have hb : (oldp.ref != newp.ref) = true := by
      simpa using hne
    simp [componentWillReceiveProps, hval, hb]
  · intro heq
    have hb : (oldp.ref != newp.ref) = false := by
      simpa using heq
    cases hval : newp.val <;> simp [componentWillReceiveProps, hval, hb]
  · intro hval
    cases hb : (oldp.ref != newp.ref) <;> simp [componentWillReceiveProps, hval, hb]

/-- C7 witness: an identity change to the concrete date 1 January 2000
resyncs an empty local selection to its decomposition. -/
theorem C7_witness :
    componentWillReceiveProps ⟨FieldVal.vnull, FieldVal.vnull, FieldVal.vnull⟩
      ⟨0, none⟩ ⟨1, some (JDate.valid 2000 0 1)⟩ =
      selectedFromDate (JDate.valid 2000 0 1) :=
  (C7_resync_only_on_identity_change_to_date
    ⟨FieldVal.vnull, FieldVal.vnull, FieldVal.vnull⟩ ⟨0, none⟩
    ⟨1, some (JDate.valid 2000 0 1)⟩).1 (JDate.valid 2000 0 1) (by decide) rfl

/-- C8: the field wrapper errors out exactly when the `label` prop is truthy
and the `id` prop is not; every other combination renders successfully
(JavaScript truthiness: `null` and the empty string are falsy). -/
theorem C8_label_requires_id :
    ∀ (label id : Option String),
      (∃ e, birthdayInputFieldComponent label id = Except.error e)
        ↔ (truthyStr label = true ∧ truthyStr id = false) := by
  intro label id
  cases hl : truthyStr label <;> cases hi : truthyStr id <;>
    simp [birthdayInputFieldComponent, hl, hi]

/-- C8 witness: a truthy label with a `null` id errors; the same label with a
truthy id renders. -/
theorem C8_witness :
    (∃ e, birthdayInputFieldComponent (some "Date of birth") none = Except.error e)
    ∧ ¬ ∃ e, birthdayInputFieldComponent (some "Date of birth") (some "dob") = Except.error e :=
  ⟨(C8_label_requires_id (some "Date of birth") none).mpr (by decide),
   fun he =>
     absurd ((C8_label_requires_id (some "Date of birth") (some "dob")).mp he).2 (by decide)⟩

/-- C9: the day options are the fixed list 1..31 (independent of month), the
month options 1..12, the year options the current year and the 79 preceding
years in descending order; day and month labels are `pad`-rendered to two
characters, year labels are the plain decimal string. -/
theorem C9_fixed_option_domains :
    days = [1, 2, 3, 4, 5, 6, 7, 8, 9, 10, 11, 12, 13, 14, 15, 16, 17, 18, 19, 20,
      21, 22, 23, 24, 25, 26, 27, 28, 29, 30, 31]
    ∧ months = [1, 2, 3, 4, 5, 6, 7, 8, 9, 10, 11, 12]
    ∧ (∀ cy : Int, (years cy).length = 80
        ∧ ∀ i : Nat, i < 80 → (years cy).get? i = some (cy - i))
    ∧ (∀ d ∈ days, (dayLabel d).length = 2)
    ∧ (∀ m ∈ months, (monthLabel m).length = 2)
    ∧ (∀ y : Int, yearLabel y = toString y) := by
  refine ⟨by decide, by decide, ?_, by decide, by decide, fun y => rfl⟩
  intro cy
  have h80 : (cy - (cy - yearsToShow)).toNat = 80 := by
    have h : cy - (cy - yearsToShow) = 80 := by
      simp only [yearsToShow]
      omega
    rw [h]
    rfl
  constructor
  · unfold years rangeDown
    rw [h80, List.length_map, List.length_range]
  · intro i hi
    unfold years rangeDown
    rw [h80, List.get?_eq_getElem?, List.getElem?_map, List.getElem?_range hi]
    rfl

/-- C9 witness: the year slot at index 79 for current year 2026 is 1947. -/
theorem C9_witness :
    (years 2026).get? 79 = some 1947 := by
  have h := (C9_fixed_option_domains.2.2.1 2026).2 79 (by decide)
  simpa using h

/-- C10: `parseNum` on a raw string is absent exactly when the string has no
leading base-10 integer; `"12abc"` parses to 12, and a change event carrying
`"12abc"` stores the integer 12 (not the raw string) in the local selection,
so composition accepts it: with month 1 and year 2000 already selected it
emits the concrete date 12 January 2000. -/
theorem C10_leading_integer_parsing :
    (∀ s : String, parseNum (FieldVal.vstr s) = none ↔ hasLeadingInt s = false)
    ∧ parseNum (FieldVal.vstr "12abc") = some 12
    ∧ (∀ sel : Selection,
        getField (handleSelectChange sel FieldType.day "12abc").newState FieldType.day =
          FieldVal.vnum 12)
    ∧ (handleSelectChange ⟨FieldVal.vnull, FieldVal.vnum 1, FieldVal.vnum 2000⟩
        FieldType.day "12abc").emitted = [some (JDate.valid 2000 0 12)] := by
  refine ⟨?_, by decide, fun sel => rfl, by decide⟩
  intro s
  simp only [parseNum, jsParseIntStr, hasLeadingInt, jsParseIntChars, hasLeadingIntChars]
  cases hcs : (stripSign (s.data.dropWhile isWsChar)).2 with
  | nil => simp
  | cons c rest =>
      cases hd : isDigitChar c <;> simp [List.takeWhile, hd]

/-- C10 witness: a string with no digits after its sign parses to absent. -/
theorem C10_witness :
    parseNum (FieldVal.vstr "-abc") = none :=
  (C10_leading_integer_parsing.1 "-abc").mpr (by decide)

end Birthday
